import Mathlib

/-!
Verification of `url_base/selenium_base.py`: thin helpers around a
browser-automation library (driver creation, form search, screenshot,
element lookup).  The Python module is shallowly embedded: the external
browser/driver is modelled as an explicit environment (`Env`), exceptions
as an error type (`PyError`), and the observable side effects of each call
(page queries, log entries, navigations, file writes) as an ordered trace
of `Action`s returned alongside the result.
-/

namespace SeleniumBase

/-- A single quote character, used when building Python-style messages. -/
def sq : String := "\x27"

/-- A reference to a DOM node, owned by the session. -/
structure Element where
  eid : Nat
deriving DecidableEq, Repr

/-- The lookup strategies of `selenium.webdriver.common.by.By` used by the
module. -/
inductive By where
  | CLASS_NAME
  | ID
  | TAG_NAME
  | NAME
  | LINK_TEXT
  | PARTIAL_LINK_TEXT
  | CSS_SELECTOR
  | XPATH
deriving DecidableEq, Repr

/-- The Python exceptions that the module can raise or catch. -/
inductive PyError where
  | valueError (msg : String)
  | keyError (key : String)
  | noSuchElement
  | webDriverException (msg : String)
deriving DecidableEq, Repr

/-- Observable side effects of a call, in the order they happen.  A page
query is an element lookup issued against the live session; `logError` is a
`logging.error` call; `navigate` is a `driver.get` attempt; `screenshotFile`
is `driver.get_screenshot_as_file`. -/
inductive Action where
  | pageQuery (strategy : By) (value : String)
  | clear (e : Element)
  | sendKeys (e : Element) (text : String)
  | navigate (url : String)
  | screenshotFile (file : String)
  | logError (msg : String)
deriving DecidableEq, Repr

/-- The browsers with a registered constructor in `_driver_map`. -/
inductive BrowserKind where
  | chrome
  | safari
  | firefox
  | ie
  | edge
deriving DecidableEq, Repr

/-- The external environment: behaviour of the underlying browser-automation
library, which the Python module only calls through.  `construct b = some m`
means instantiating browser `b`'s driver raises `WebDriverException m`
(e.g. the driver executable is missing); `none` means construction succeeds.
`navFails u = some m` means `driver.get u` raises `WebDriverException m`.
`pageOf u` is the DOM of the page at URL `u` as a query function: for each
strategy and value, the ordered list of matching elements.  `submitResult u
e t` is the URL the browser ends up at after text `t` (ending in a RETURN
key) is sent to element `e` on the page at `u`. -/
structure Env where
  construct : BrowserKind → Option String
  navFails : String → Option String
  pageOf : String → By → String → List Element
  submitResult : String → Element → String → String

/-- A live browser session: the environment plus the current URL.  This is
the `driver` object the Python functions receive. -/
structure Session where
  env : Env
  url : String

/-- The DOM query of the session's current page: `driver.find_element(s)`
consult this.  Per the underlying library, a single-element lookup raises
`NoSuchElementException` exactly when this list is empty, and a
multi-element lookup returns the whole (possibly empty) list without
raising. -/
def Session.dom (s : Session) (strategy : By) (value : String) : List Element :=
  s.env.pageOf s.url strategy value

/-- The constant `Keys.RETURN` (U+E006) from `selenium.webdriver.common.keys`. -/
def Keys_RETURN : String := "\uE006"

/-- Python `repr` of one of the plain selector-name strings. -/
def pyStrRepr (s : String) : String := sq ++ s ++ sq

/-- Python `repr` of a list of plain strings, as produced by
`"{}".format(list_of_strings)`. -/
def pyListRepr (xs : List String) : String :=
  "[" ++ String.intercalate ", " (xs.map pyStrRepr) ++ "]"

/-- Embedding of `_driver_map` (selenium_base.py lines 43-51): look the browser name up
in the dict `browser_map`; a missing key raises `KeyError`. -/
def _driver_map (browser : String) : Except PyError BrowserKind :=
  if browser = "chrome" then .ok .chrome
  else if browser = "safari" then .ok .safari
  else if browser = "firefox" then .ok .firefox
  else if browser = "ie" then .ok .ie
  else if browser = "edge" then .ok .edge
  else .error (.keyError browser)

/-- The keys of `browser_map`, in insertion order. -/
def browser_names : List String := ["chrome", "safari", "firefox", "ie", "edge"]

/-- The diagnostic logged by `create_page_driver` when driver construction
raises `WebDriverException`. -/
def driverDiagMsg : String :=
  "Driver not found, download one in https://selenium-python.readthedocs.io/installation.html#drivers"

/-- Embedding of `create_page_driver` (selenium_base.py lines 11-40): resolve the browser
name, instantiate the driver (the `try` only catches `WebDriverException`,
so the `KeyError` from `_driver_map` passes through it), log a diagnostic
and re-raise on a construction failure, then `driver.get(url)` outside the
`try`.  Returns the outcome and the ordered trace of effects. -/
def create_page_driver (env : Env) (url : String) (browser : String) :
    Except PyError Session × List Action :=
  match _driver_map browser with
  | .error e => (.error e, [])
  | .ok kind =>
    match env.construct kind with
    | some m => (.error (.webDriverException m), [.logError driverDiagMsg])
    | none =>
      match env.navFails url with
      | some m => (.error (.webDriverException m), [.navigate url])
      | none => (.ok { env := env, url := url }, [.navigate url])

/-- Embedding of `search_form` (selenium_base.py lines 54-76):
`driver.find_element_by_class_name` (raises `NoSuchElementException`,
uncaught, if nothing matches), `element.clear()`,
`element.send_keys(search_term + Keys.RETURN)` (the RETURN submits the
form, moving the browser to the result URL), then
`driver.get(driver.current_url)`. -/
def search_form (sess : Session) (html_class_form : String) (search_term : String) :
    Except PyError Session × List Action :=
  match sess.dom By.CLASS_NAME html_class_form with
  | [] => (.error .noSuchElement, [.pageQuery By.CLASS_NAME html_class_form])
  | e :: _ =>
    let typed := search_term ++ Keys_RETURN
    let u := sess.env.submitResult sess.url e typed
    let steps := [Action.pageQuery By.CLASS_NAME html_class_form,
                  Action.clear e, Action.sendKeys e typed, Action.navigate u]
    match sess.env.navFails u with
    | some m => (.error (.webDriverException m), steps)
    | none => (.ok { sess with url := u }, steps)

/-- Computable test that string `s` starts with `p`, on the underlying
character lists. -/
def strStartsWith (s p : String) : Bool := p.data.isPrefixOf s.data

/-- Computable test that string `s` ends with `p`, on the underlying
character lists. -/
def strEndsWith (s p : String) : Bool := p.data.reverse.isPrefixOf s.data.reverse

/-- Two-argument `os.path.join` (POSIX): an absolute second component
replaces the first; otherwise a separator is inserted unless the first
component is empty or already ends in one. -/
def os_path_join (a b : String) : String :=
  if strStartsWith b "/" then b
  else if a = "" then b
  else if strEndsWith a "/" then a ++ b
  else a ++ "/" ++ b

/-- Default value of the `path` parameter of `screenshot`. -/
def screenshot_default_path : String := ""

/-- Default value of the `filename` parameter of `screenshot`. -/
def screenshot_default_filename : String := "page.png"

/-- Embedding of `screenshot` (selenium_base.py lines 79-95):
`driver.get_screenshot_as_file(os.path.join(path, filename))`; returns
`None` (modelled as `Unit`). -/
def screenshot (sess : Session) (path : String) (filename : String) :
    Unit × List Action :=
  let _ := sess
  ((), [.screenshotFile (os_path_join path filename)])

/-- The keys of `selector_dict` in `find_element`, in insertion order. -/
def valid_selectors : List String :=
  ["class", "id", "tag", "name", "link_text", "partial_link_text", "css", "xpath"]

/-- Embedding of `selector_dict` (selenium_base.py lines 128-137) as a partial map from
selector-type string to lookup strategy. -/
def selector_dict (selector_type : String) : Option By :=
  if selector_type = "class" then some .CLASS_NAME
  else if selector_type = "id" then some .ID
  else if selector_type = "tag" then some .TAG_NAME
  else if selector_type = "name" then some .NAME
  else if selector_type = "link_text" then some .LINK_TEXT
  else if selector_type = "partial_link_text" then some .PARTIAL_LINK_TEXT
  else if selector_type = "css" then some .CSS_SELECTOR
  else if selector_type = "xpath" then some .XPATH
  else none

/-- The `ValueError` message
`"Selector type '{}' not in {}".format(selector_type, list(selector_dict.keys()))`. -/
def selectorErrorMsg (selector_type : String) : String :=
  "Selector type " ++ sq ++ selector_type ++ sq ++ " not in "
    ++ pyListRepr valid_selectors

/-- The `logging.error` message `"Element {} not found".format(value)`. -/
def elementNotFoundMsg (value : String) : String :=
  "Element " ++ value ++ " not found"

/-- Result of `find_element`: one element when `multiple` is false, a list
of elements when `multiple` is true. -/
inductive FindResult where
  | one (e : Element)
  | many (es : List Element)
deriving DecidableEq, Repr

/-- Default value of the `selector_type` parameter of `find_element`. -/
def find_element_default_selector_type : String := "class"

/-- Default value of the `multiple` parameter of `find_element`. -/
def find_element_default_multiple : Bool := false

/-- Embedding of `find_element` (selenium_base.py lines 98-153): reject a
`selector_type` outside `selector_dict` with a `ValueError` before any page
lookup; otherwise issue the lookup.  With `multiple`, the underlying
`driver.find_elements` returns the (possibly empty) match list and never
raises `NoSuchElementException`; without it, `driver.find_element` raises
`NoSuchElementException` when nothing matches, which the module logs
(`"Element {} not found"`) and re-raises. -/
def find_element (sess : Session) (value : String) (selector_type : String)
    (multiple : Bool) : Except PyError FindResult × List Action :=
  match selector_dict selector_type with
  | none => (.error (.valueError (selectorErrorMsg selector_type)), [])
  | some strategy =>
    if multiple then
      (.ok (.many (sess.dom strategy value)), [.pageQuery strategy value])
    else
      match sess.dom strategy value with
      | [] => (.error .noSuchElement,
               [.pageQuery strategy value, .logError (elementNotFoundMsg value)])
      | e :: _ => (.ok (.one e), [.pageQuery strategy value])

/-- Substring containment, stated on the underlying character lists. -/
def strContains (hay needle : String) : Prop :=
  List.IsInfix needle.data hay.data

instance (hay needle : String) : Decidable (strContains hay needle) := by
  unfold strContains; infer_instance

/-- Whether a trace contains a page query. -/
def hasPageQuery (tr : List Action) : Bool :=
  tr.any fun a => match a with
    | .pageQuery _ _ => true
    | _ => false

/-- Whether a trace contains a log entry. -/
def hasLogEntry (tr : List Action) : Bool :=
  tr.any fun a => match a with
    | .logError _ => true
    | _ => false

/-- Whether a trace contains a navigation attempt. -/
def hasNavigate (tr : List Action) : Bool :=
  tr.any fun a => match a with
    | .navigate _ => true
    | _ => false

/-- A concrete environment whose pages are all empty and where everything
succeeds, for witnesses. -/
def emptyEnv : Env :=
  { construct := fun _ => none
    navFails := fun _ => none
    pageOf := fun _ _ _ => []
    submitResult := fun _ _ _ => "about:result" }

/-- A concrete session over `emptyEnv`. -/
def emptySession : Session := { env := emptyEnv, url := "about:blank" }

/-- A concrete element, for witnesses. -/
def elem0 : Element := ⟨0⟩

/-- A concrete environment whose pages all contain `elem0` under every
selector, for witnesses. -/
def pageEnv : Env :=
  { construct := fun _ => none
    navFails := fun _ => none
    pageOf := fun _ _ _ => [elem0]
    submitResult := fun _ _ _ => "about:result" }

/-- A concrete session over `pageEnv`. -/
def pageSession : Session := { env := pageEnv, url := "http://example.com" }

/-- A concrete environment where every driver construction raises
`WebDriverException`, for witnesses. -/
def failEnv : Env :=
  { emptyEnv with construct := fun _ => some "geckodriver executable needs to be in PATH" }

/-- A concrete environment where construction succeeds but every navigation
raises `WebDriverException`, for witnesses. -/
def navFailEnv : Env :=
  { emptyEnv with navFails := fun _ => some "Reached error page" }

theorem string_append_assoc (a b c : String) : a ++ b ++ c = a ++ (b ++ c) := by
  apply String.ext
  simp [String.data_append, List.append_assoc]

theorem strContains_of_eq_append (a n b hay : String) (h : hay = a ++ n ++ b) :
    strContains hay n := by
  subst h
  refine ⟨a.data, b.data, ?_⟩
  simp [String.data_append]

theorem strContains_append_left (a b n : String) (h : strContains b n) :
    strContains (a ++ b) n := by
  obtain ⟨s, t, hst⟩ := h
  exact ⟨a.data ++ s, t, by simp [String.data_append, ← hst, List.append_assoc]⟩

theorem selectorErrorMsg_contains_self (st : String) :
    strContains (selectorErrorMsg st) st :=
  strContains_of_eq_append ("Selector type " ++ sq) st
    (sq ++ " not in " ++ pyListRepr valid_selectors) _
    (by simp [selectorErrorMsg, string_append_assoc])

set_option maxRecDepth 4000 in
theorem selectorErrorMsg_contains_valid (st k : String) (hk : k ∈ valid_selectors) :
    strContains (selectorErrorMsg st) k := by
  have h1 : selectorErrorMsg st
      = ("Selector type " ++ sq ++ st ++ sq ++ " not in ") ++ pyListRepr valid_selectors := by
    simp [selectorErrorMsg, string_append_assoc]
  rw [h1]
  apply strContains_append_left
  fin_cases hk <;> decide

theorem selector_dict_isSome_iff (st : String) :
    (selector_dict st).isSome ↔ st ∈ valid_selectors := by
  unfold selector_dict valid_selectors
  split_ifs <;> simp_all

theorem selector_dict_none (st : String) (h : st ∉ valid_selectors) :
    selector_dict st = none := by
  cases hd : selector_dict st with
  | none => rfl
  | some b => exact absurd ((selector_dict_isSome_iff st).mp (by simp [hd])) h

theorem driver_map_unknown (browser : String) (h : browser ∉ browser_names) :
    _driver_map browser = .error (.keyError browser) := by
  simp only [browser_names, List.mem_cons, List.not_mem_nil, or_false] at h
  push_neg at h
  obtain ⟨h1, h2, h3, h4, h5⟩ := h
  simp [_driver_map, h1, h2, h3, h4, h5]

/-- C1: for every selector-kind string outside
{class, id, tag, name, link_text, partial_link_text, css, xpath},
`find_element` raises a `ValueError` whose message contains the offending
selector-kind value and every member of the valid set, and its effect trace
is empty, so no page query is issued against the session before the error. -/
theorem find_element_rejects_unknown_selector (sess : Session) (value st : String)
    (m : Bool) (h : st ∉ valid_selectors) :
    find_element sess value st m = (.error (.valueError (selectorErrorMsg st)), [])
    ∧ strContains (selectorErrorMsg st) st
    ∧ (∀ k ∈ valid_selectors, strContains (selectorErrorMsg st) k)
    ∧ hasPageQuery (find_element sess value st m).2 = false := by
  have hnone := selector_dict_none st h
  refine ⟨by simp [find_element, hnone], selectorErrorMsg_contains_self st,
    fun k hk => selectorErrorMsg_contains_valid st k hk, ?_⟩
  simp [find_element, hnone, hasPageQuery]

theorem find_element_rejects_unknown_selector_witness :
    "foo" ∉ valid_selectors
    ∧ (find_element emptySession "x" "foo" false
        = (.error (.valueError (selectorErrorMsg "foo")), [])
      ∧ strContains (selectorErrorMsg "foo") "foo"
      ∧ (∀ k ∈ valid_selectors, strContains (selectorErrorMsg "foo") k)
      ∧ hasPageQuery (find_element emptySession "x" "foo" false).2 = false) :=
  ⟨by decide, find_element_rejects_unknown_selector emptySession "x" "foo" false (by decide)⟩

/-- C2 counterexample: the selector-kind spelled with hyphens, "link-text",
which the claim lists as a member of the accepted set, is rejected by
`find_element` with a `ValueError` and is absent from `selector_dict`, so it
is not translated to any lookup strategy. -/
theorem find_element_hyphenated_kind_rejected :
    find_element emptySession "x" "link-text" false
      = (.error (.valueError (selectorErrorMsg "link-text")), [])
    ∧ selector_dict "link-text" = none := by
  exact ⟨rfl, rfl⟩

/-- C2 (amended): the accepted set uses underscores:
{class, id, tag, name, link_text, partial_link_text, css, xpath}.  A
selector-kind is in this set exactly when `selector_dict` translates it to
an underlying lookup strategy; for every kind in the set `find_element`
issues the underlying lookup, and every kind outside the set is rejected
with a `ValueError` and an empty trace, before any lookup attempt. -/
theorem find_element_selector_set (st : String) :
    (st ∈ valid_selectors ↔ (selector_dict st).isSome)
    ∧ (∀ (sess : Session) (value : String) (m : Bool), st ∈ valid_selectors →
        ∃ b, selector_dict st = some b
          ∧ Action.pageQuery b value ∈ (find_element sess value st m).2)
    ∧ (∀ (sess : Session) (value : String) (m : Bool), st ∉ valid_selectors →
        find_element sess value st m
          = (.error (.valueError (selectorErrorMsg st)), [])) := by
  refine ⟨(selector_dict_isSome_iff st).symm, ?_, ?_⟩
  · intro sess value m hmem
    obtain ⟨b, hb⟩ := Option.isSome_iff_exists.mp ((selector_dict_isSome_iff st).mpr hmem)
    refine ⟨b, hb, ?_⟩
    cases m <;> rcases hdom : sess.dom b value with _ | ⟨e, rest⟩ <;>
      simp [find_element, hb, hdom]
  · intro sess value m hmem
    simp [find_element, selector_dict_none st hmem]

theorem find_element_selector_set_witness :
    (∃ b, selector_dict "class" = some b
      ∧ Action.pageQuery b "v" ∈ (find_element emptySession "v" "class" false).2)
    ∧ find_element emptySession "v" "zzz" true
        = (.error (.valueError (selectorErrorMsg "zzz")), []) :=
  ⟨(find_element_selector_set "class").2.1 emptySession "v" false (by decide),
   (find_element_selector_set "zzz").2.2 emptySession "v" true (by decide)⟩

/-- C3: for every browser name outside {chrome, safari, firefox, ie, edge},
`create_page_driver` fails with a `KeyError` (a lookup error, uncaught by
the `except WebDriverException` clause) and its trace is empty, so no
navigation (`driver.get`) is attempted. -/
theorem create_page_driver_unknown_browser (env : Env) (url browser : String)
    (h : browser ∉ browser_names) :
    create_page_driver env url browser = (.error (.keyError browser), [])
    ∧ hasNavigate (create_page_driver env url browser).2 = false := by
  have hmap := driver_map_unknown browser h
  exact ⟨by simp [create_page_driver, hmap], by simp [create_page_driver, hmap, hasNavigate]⟩

theorem create_page_driver_unknown_browser_witness :
    "opera" ∉ browser_names
    ∧ (create_page_driver emptyEnv "http://example.com" "opera"
        = (.error (.keyError "opera"), [])
      ∧ hasNavigate (create_page_driver emptyEnv "http://example.com" "opera").2 = false) :=
  ⟨by decide, create_page_driver_unknown_browser emptyEnv "http://example.com" "opera" (by decide)⟩

/-- C4 counterexample: with `multiple = true` and a recognized selector-kind
that matches nothing, `find_element` returns successfully with the empty
sequence (the underlying `find_elements` returns an empty list instead of
raising `NoSuchElementException`), so the reference behavior does not treat
zero matches as a failure. -/
theorem find_element_multiple_empty_is_success :
    find_element emptySession "nonexistent" "class" true
      = (.ok (.many []), [.pageQuery By.CLASS_NAME "nonexistent"]) := by
  exact rfl

/-- C4 (amended): with `multiple = false`, `find_element` returns exactly
one element handle or fails with `NoSuchElementException`; with
`multiple = true` it returns the ordered sequence of all matches, and zero
matches yields the empty sequence as a successful result, not a failure. -/
theorem find_element_multiplicity (sess : Session) (value st : String) (b : By)
    (hb : selector_dict st = some b) :
    ((∃ e, (find_element sess value st false).1 = .ok (.one e))
      ∨ (find_element sess value st false).1 = .error .noSuchElement)
    ∧ (find_element sess value st true).1 = .ok (.many (sess.dom b value)) := by
  constructor
  · rcases hdom : sess.dom b value with _ | ⟨e, rest⟩
    · exact Or.inr (by simp [find_element, hb, hdom])
    · exact Or.inl ⟨e, by simp [find_element, hb, hdom]⟩
  · simp [find_element, hb]

theorem find_element_multiplicity_witness :
    ((∃ e, (find_element pageSession "v" "tag" false).1 = .ok (.one e))
      ∨ (find_element pageSession "v" "tag" false).1 = .error .noSuchElement)
    ∧ (find_element pageSession "v" "tag" true).1
        = .ok (.many (pageSession.dom By.TAG_NAME "v")) :=
  find_element_multiplicity pageSession "v" "tag" By.TAG_NAME rfl

/-- C5: for every recognized selector-kind whose lookup matches nothing in
the current page, `find_element` (at its default `multiple = false`) fails
with `NoSuchElementException`, and the trace shows a `logging.error` entry
containing the searched value emitted after the page query and before the
error is re-raised to the caller. -/
theorem find_element_not_found_logs (sess : Session) (value st : String) (b : By)
    (hb : selector_dict st = some b) (hdom : sess.dom b value = []) :
    find_element sess value st false
      = (.error .noSuchElement,
         [.pageQuery b value, .logError (elementNotFoundMsg value)])
    ∧ strContains (elementNotFoundMsg value) value := by
  refine ⟨by simp [find_element, hb, hdom], ?_⟩
  exact strContains_of_eq_append "Element " value " not found" _ rfl

theorem find_element_not_found_logs_witness :
    find_element emptySession "q" "class" false
      = (.error .noSuchElement,
         [.pageQuery By.CLASS_NAME "q", .logError (elementNotFoundMsg "q")])
    ∧ strContains (elementNotFoundMsg "q") "q" :=
  find_element_not_found_logs emptySession "q" "class" By.CLASS_NAME rfl rfl

/-- C6 counterexample: when no element with the given class name exists,
`search_form` surfaces the lookup error but emits no log entry at all (its
`find_element_by_class_name` call sits in no `try` block), refuting the
claim that every page-lookup operation logs the missing value. -/
theorem search_form_missing_class_no_log :
    search_form emptySession "cls" "term"
      = (.error .noSuchElement, [.pageQuery By.CLASS_NAME "cls"])
    ∧ hasLogEntry (search_form emptySession "cls" "term").2 = false := by
  exact ⟨rfl, rfl⟩

/-- C6 (amended): a lookup error is re-raised, never recovered, by both
operations; `find_element` (single-element path) logs an entry containing
the missing value before re-raising, while `search_form` lets the lookup
failure propagate uncaught with no log entry. -/
theorem lookup_error_propagation (sess : Session) (value st cls term : String)
    (b : By) (hb : selector_dict st = some b) (hv : sess.dom b value = [])
    (hc : sess.dom By.CLASS_NAME cls = []) :
    ((find_element sess value st false).1 = .error .noSuchElement
      ∧ Action.logError (elementNotFoundMsg value) ∈ (find_element sess value st false).2
      ∧ strContains (elementNotFoundMsg value) value)
    ∧ (search_form sess cls term
        = (.error .noSuchElement, [.pageQuery By.CLASS_NAME cls])
      ∧ hasLogEntry (search_form sess cls term).2 = false) := by
  refine ⟨⟨by simp [find_element, hb, hv], by simp [find_element, hb, hv], ?_⟩, ?_, ?_⟩
  · exact strContains_of_eq_append "Element " value " not found" _ rfl
  · simp [search_form, hc]
  · simp [search_form, hc, hasLogEntry]

theorem lookup_error_propagation_witness :
    (((find_element emptySession "w" "id" false).1 = .error .noSuchElement
      ∧ Action.logError (elementNotFoundMsg "w") ∈ (find_element emptySession "w" "id" false).2
      ∧ strContains (elementNotFoundMsg "w") "w")
    ∧ (search_form emptySession "c" "t"
        = (.error .noSuchElement, [.pageQuery By.CLASS_NAME "c"])
      ∧ hasLogEntry (search_form emptySession "c" "t").2 = false)) :=
  lookup_error_propagation emptySession "w" "id" "c" "t" By.ID rfl rfl rfl

/-- C7: when driver construction raises `WebDriverException`,
`create_page_driver` logs the diagnostic (which contains the URL of the
driver-installation documentation) and re-raises the very same exception;
the trace is exactly that one log entry, so nothing is swallowed and no
navigation happens. -/
theorem create_page_driver_construction_failure (env : Env) (url browser : String)
    (kind : BrowserKind) (msg : String)
    (hb : _driver_map browser = .ok kind) (hc : env.construct kind = some msg) :
    create_page_driver env url browser
      = (.error (.webDriverException msg), [.logError driverDiagMsg])
    ∧ strContains driverDiagMsg
        "https://selenium-python.readthedocs.io/installation.html#drivers" := by
  refine ⟨by simp [create_page_driver, hb, hc], ?_⟩
  exact strContains_of_eq_append "Driver not found, download one in "
    "https://selenium-python.readthedocs.io/installation.html#drivers" "" _ rfl

theorem create_page_driver_construction_failure_witness :
    create_page_driver failEnv "http://example.com" "firefox"
      = (.error (.webDriverException "geckodriver executable needs to be in PATH"),
         [.logError driverDiagMsg])
    ∧ strContains driverDiagMsg
        "https://selenium-python.readthedocs.io/installation.html#drivers" :=
  create_page_driver_construction_failure failEnv "http://example.com" "firefox"
    .firefox "geckodriver executable needs to be in PATH" rfl rfl

/-- C8: whenever the class-name lookup finds an element `e`, `search_form`
performs exactly, in order: the page query by class name, `clear` on `e`,
`send_keys` of the search term followed by the RETURN key (the submit
action), and a `driver.get` on the session's resulting current URL; when
that reload does not fail, the session ends at that URL. -/
theorem search_form_steps (sess : Session) (cls term : String) (e : Element)
    (rest : List Element) (h : sess.dom By.CLASS_NAME cls = e :: rest) :
    (search_form sess cls term).2
      = [.pageQuery By.CLASS_NAME cls, .clear e,
         .sendKeys e (term ++ Keys_RETURN),
         .navigate (sess.env.submitResult sess.url e (term ++ Keys_RETURN))]
    ∧ (sess.env.navFails (sess.env.submitResult sess.url e (term ++ Keys_RETURN)) = none →
        (search_form sess cls term).1
          = .ok { sess with url := sess.env.submitResult sess.url e (term ++ Keys_RETURN) }) := by
  constructor
  · rcases hn : sess.env.navFails (sess.env.submitResult sess.url e (term ++ Keys_RETURN))
      with _ | m <;> simp [search_form, h, hn]
  · intro hn
    simp [search_form, h, hn]

theorem search_form_steps_witness :
    (search_form pageSession "search-input" "deep learning").2
      = [.pageQuery By.CLASS_NAME "search-input", .clear elem0,
         .sendKeys elem0 ("deep learning" ++ Keys_RETURN),
         .navigate (pageSession.env.submitResult pageSession.url elem0
           ("deep learning" ++ Keys_RETURN))]
    ∧ (pageSession.env.navFails (pageSession.env.submitResult pageSession.url elem0
          ("deep learning" ++ Keys_RETURN)) = none →
        (search_form pageSession "search-input" "deep learning").1
          = .ok { pageSession with
              url := pageSession.env.submitResult pageSession.url elem0
                ("deep learning" ++ Keys_RETURN) }) :=
  search_form_steps pageSession "search-input" "deep learning" elem0 [] rfl

/-- C9: the defaults of `screenshot` are `path = ""` and
`filename = "page.png"`; the call writes the page image to exactly the join
of `path` and `filename` (so, at the defaults, to "page.png") and returns
no value. -/
theorem screenshot_writes_joined_path (sess : Session) (path filename : String) :
    screenshot sess path filename
      = ((), [.screenshotFile (os_path_join path filename)])
    ∧ screenshot sess screenshot_default_path screenshot_default_filename
      = ((), [.screenshotFile "page.png"])
    ∧ screenshot_default_path = "" ∧ screenshot_default_filename = "page.png" := by
  exact ⟨rfl, rfl, rfl, rfl⟩

/-- C10: once driver construction succeeds, the diagnostic log entry can no
longer be emitted: whatever `driver.get` does, the trace of
`create_page_driver` has no log entry, and when the navigation raises
`WebDriverException` the error propagates with the trace holding only the
navigation attempt. -/
theorem create_page_driver_nav_failure_no_log (env : Env) (url browser : String)
    (kind : BrowserKind) (hb : _driver_map browser = .ok kind)
    (hc : env.construct kind = none) :
    hasLogEntry (create_page_driver env url browser).2 = false
    ∧ (∀ msg, env.navFails url = some msg →
        create_page_driver env url browser
          = (.error (.webDriverException msg), [.navigate url])) := by
  constructor
  · rcases hn : env.navFails url with _ | m <;>
      simp [create_page_driver, hb, hc, hn, hasLogEntry]
  · intro msg hn
    simp [create_page_driver, hb, hc, hn]

theorem create_page_driver_nav_failure_no_log_witness :
    hasLogEntry (create_page_driver navFailEnv "http://example.com" "chrome").2 = false
    ∧ (∀ msg, navFailEnv.navFails "http://example.com" = some msg →
        create_page_driver navFailEnv "http://example.com" "chrome"
          = (.error (.webDriverException msg), [.navigate "http://example.com"])) :=
  create_page_driver_nav_failure_no_log navFailEnv "http://example.com" "chrome"
    .chrome rfl rfl

end SeleniumBase
